import Mathlib

/-!
Shallow embedding of the TULIP security module (src/tulip/security.py and the
security constants of src/tulip/config.py), together with proofs settling the
frozen claims about it.

Strings are modelled as `List Char` (ASCII discipline: Python's `str.upper`,
`str.lower`, `str.strip` and the regex classes `\s`, `\d`, `\w` are modelled on
their ASCII behaviour, which covers every input appearing in the claims).
Each Python regex used by the module is hand-compiled into an explicit scanner
whose greedy, leftmost-match behaviour coincides with `re.search` on the
pattern in question (all the patterns are backtracking-free because adjacent
character classes are disjoint).  External collaborators (sqlparse, the
sha256 hex digest, the clock, the datathon-period and BigQuery configuration
probes) are passed in as explicit parameters, exactly where the Python code
calls out to them.
-/

namespace Tulip

/-- Convert a Lean string literal to the `List Char` representation. -/
def strL (s : String) : List Char := s.data

/-- Python regex class `\s` (ASCII part), also the set stripped by `str.strip`. -/
def isSpaceChar (c : Char) : Bool :=
  c = ' ' || c = '\t' || c = '\n' || c = '\r' || c = '\x0b' || c = '\x0c'

/-- ASCII model of Python `str.upper` on one character. -/
def toUp (c : Char) : Char :=
  if 'a' ≤ c && c ≤ 'z' then Char.ofNat (c.toNat - 32) else c

/-- ASCII model of Python `str.lower` on one character. -/
def toLo (c : Char) : Char :=
  if 'A' ≤ c && c ≤ 'Z' then Char.ofNat (c.toNat + 32) else c

/-- Python `str.upper`. -/
def pupper (l : List Char) : List Char := l.map toUp

/-- Python `str.lower`. -/
def plower (l : List Char) : List Char := l.map toLo

/-- Python `str.strip`. -/
def pstrip (l : List Char) : List Char :=
  ((l.dropWhile isSpaceChar).reverse.dropWhile isSpaceChar).reverse

/-- `startsL needle hay`: Python `hay.startswith(needle)`. -/
def startsL : List Char → List Char → Bool
  | [], _ => true
  | _ :: _, [] => false
  | a :: as, b :: bs => a = b && startsL as bs

/-- `containsSub needle hay`: Python `needle in hay` (substring test). -/
def containsSub (needle : List Char) : List Char → Bool
  | [] => startsL needle []
  | c :: rest => startsL needle (c :: rest) || containsSub needle rest

/-- `re.search`: try a start-anchored matcher at every suffix. -/
def searchFound (m : List Char → Bool) : List Char → Bool
  | [] => m []
  | c :: rest => m (c :: rest) || searchFound m rest

/-- `re.search` with a captured value: leftmost successful start position wins. -/
def searchCapture (m : List Char → Option Nat) : List Char → Option Nat
  | [] => m []
  | c :: rest =>
    match m (c :: rest) with
    | some v => some v
    | none => searchCapture m rest

/-- Consume a literal, as in matching a regex literal fragment. -/
def lit (w s : List Char) : Option (List Char) :=
  if startsL w s then some (s.drop w.length) else none

/-- Regex fragment `\s*`. -/
def ws0 (s : List Char) : List Char := s.dropWhile isSpaceChar

/-- Regex fragment `\s+`. -/
def ws1 (s : List Char) : Option (List Char) :=
  match s with
  | c :: rest => if isSpaceChar c then some (rest.dropWhile isSpaceChar) else none
  | [] => none

/-- Numeric value of a digit run. -/
def digitsVal (ds : List Char) : Nat :=
  ds.foldl (fun acc c => acc * 10 + (c.toNat - 48)) 0

/-- Regex fragment `(\d+)`: greedy digits with the captured value. -/
def digits1 (s : List Char) : Option (Nat × List Char) :=
  match s.takeWhile Char.isDigit with
  | [] => none
  | d :: ds => some (digitsVal (d :: ds), s.dropWhile Char.isDigit)

/-- Regex fragment `'?` (optional single quote). -/
def optQuote (s : List Char) : List Char :=
  match s with
  | '\'' :: rest => rest
  | _ => s

/-! ## Security configuration (src/tulip/config.py) -/

/-- config.py: maximum number of rows a query may request. -/
def MAX_QUERY_ROWS : Nat := 1000

/-- config.py: minimum aggregation size for grouped results (k-anonymity). -/
def MIN_GROUP_SIZE : Nat := 5

/-- Decimal rendering of a number inside an f-string. -/
def natChars (n : Nat) : List Char := Nat.toDigits 10 n

/-! ## Hand-compiled scanners for the regexes of security.py

Each `match…` function is the start-anchored form of one regex from the
source; `searchFound`/`searchCapture` supply the `re.search` behaviour.
Patterns searched with `re.IGNORECASE` over `sql_upper` are compiled with
upper-case literals (the subject is already upper-cased); the
re-identification patterns of `_check_reidentification_risk` are searched
WITHOUT `re.IGNORECASE`, so their lower-case literals are kept lower-case
exactly as in the source. -/

/-- Regex `;\s*--` (case-irrelevant). -/
def matchSemiDashDash (s : List Char) : Bool :=
  match s with
  | ';' :: r => startsL (strL r"--") (ws0 r)
  | _ => false

/-- Regex `;\s*/\*` (case-irrelevant). -/
def matchSemiBlock (s : List Char) : Bool :=
  match s with
  | ';' :: r => startsL (strL r"/*") (ws0 r)
  | _ => false

/-- Regex `union\s+(all\s+)?select`, IGNORECASE over the upper-cased query. -/
def matchUnionSelect (s : List Char) : Bool :=
  match lit (strL r"UNION") s with
  | none => false
  | some t1 =>
    match ws1 t1 with
    | none => false
    | some t2 =>
      (match lit (strL r"ALL") t2 with
       | some u1 =>
         (match ws1 u1 with
          | some u2 => (lit (strL r"SELECT") u2).isSome
          | none => false)
       | none => false)
      || (lit (strL r"SELECT") t2).isSome

/-- Common tail `\s+'?\d+'?\s*=\s*'?\d+` of the OR/AND tautology regexes. -/
def matchTautTail (s : List Char) : Option Unit := do
  let t1 ← ws1 s
  let (_, t2) ← digits1 (optQuote t1)
  let t3 ← lit (strL r"=") (ws0 (optQuote t2))
  let (_, _) ← digits1 (optQuote (ws0 t3))
  pure ()

/-- Regex `'\s*or\s+'?\d+'?\s*=\s*'?\d+'?`, IGNORECASE over the upper-cased query. -/
def matchOrInj (s : List Char) : Bool :=
  (do
    let t1 ← lit (strL r"'") s
    let t2 ← lit (strL r"OR") (ws0 t1)
    matchTautTail t2).isSome

/-- Regex `'\s*and\s+'?\d+'?\s*=\s*'?\d+'?`, IGNORECASE over the upper-cased query. -/
def matchAndInj (s : List Char) : Bool :=
  (do
    let t1 ← lit (strL r"'") s
    let t2 ← lit (strL r"AND") (ws0 t1)
    matchTautTail t2).isSome

/-- Regex `waitfor\s+delay`, IGNORECASE over the upper-cased query. -/
def matchWaitforDelay (s : List Char) : Bool :=
  (do
    let t1 ← lit (strL r"WAITFOR") s
    let t2 ← ws1 t1
    let _ ← lit (strL r"DELAY") t2
    pure ()).isSome

/-- Regex `<name>\s*\(`, IGNORECASE over the upper-cased query. -/
def matchNameParen (name : List Char) (s : List Char) : Bool :=
  (do
    let t1 ← lit name s
    let _ ← lit (strL r"(") (ws0 t1)
    pure ()).isSome

/-- Regex `where\s+person_id\s*=\s*\d+` — searched case-SENSITIVELY, with
lower-case literals, against the upper-cased query (as in the source). -/
def matchWherePersonId (s : List Char) : Bool :=
  (do
    let t1 ← lit (strL r"where") s
    let t2 ← ws1 t1
    let t3 ← lit (strL r"person_id") t2
    let t4 ← lit (strL r"=") (ws0 t3)
    let (_, _) ← digits1 (ws0 t4)
    pure ()).isSome

/-- Common head `having\s+count\s*\(\s*\*\s*\)\s*` of the HAVING regexes
(lower-case literals, searched case-sensitively as in the source). -/
def matchHavingCountHead (s : List Char) : Option (List Char) := do
  let t1 ← lit (strL r"having") s
  let t2 ← ws1 t1
  let t3 ← lit (strL r"count") t2
  let t4 ← lit (strL r"(") (ws0 t3)
  let t5 ← lit (strL r"*") (ws0 t4)
  let t6 ← lit (strL r")") (ws0 t5)
  pure (ws0 t6)

/-- Regex `having\s+count\s*\(\s*\*\s*\)\s*=\s*1` (case-sensitive). -/
def matchHavingCountEq1 (s : List Char) : Bool :=
  (do
    let t1 ← matchHavingCountHead s
    let t2 ← lit (strL r"=") t1
    let _ ← lit (strL r"1") (ws0 t2)
    pure ()).isSome

/-- Regex `having\s+count\s*\(\s*\*\s*\)\s*<\s*(\d+)` (case-sensitive),
returning the captured group size. -/
def matchHavingCountLt (s : List Char) : Option Nat := do
  let t1 ← matchHavingCountHead s
  let t2 ← lit (strL r"<") t1
  let (v, _) ← digits1 (ws0 t2)
  pure v

/-- Tail `limit\s+1` of the ORDER BY extreme-value regexes. -/
def limit1Tail (s : List Char) : Bool :=
  (do
    let t1 ← lit (strL r"LIMIT") s
    let t2 ← ws1 t1
    let _ ← lit (strL r"1") t2
    pure ()).isSome

/-- Regex `order\s+by\s+<field>\s+(asc|desc)?\s*limit\s+1`, IGNORECASE over
the upper-cased query. -/
def matchOrderByLimit1 (field : List Char) (s : List Char) : Bool :=
  match (do
      let a ← lit (strL r"ORDER") s
      let b ← ws1 a
      let c ← lit (strL r"BY") b
      let d ← ws1 c
      let e ← lit field d
      ws1 e) with
  | none => false
  | some t =>
    (match lit (strL r"ASC") t with
     | some u => limit1Tail (ws0 u)
     | none => false)
    || (match lit (strL r"DESC") t with
        | some u => limit1Tail (ws0 u)
        | none => false)
    || limit1Tail (ws0 t)

/-- Regex `(min|max)\s*\(\s*year_of_birth\s*\)`, IGNORECASE over the
upper-cased query: the part after MIN/MAX. -/
def matchMinMaxTail (s : List Char) : Bool :=
  (do
    let t1 ← lit (strL r"(") (ws0 s)
    let t2 ← lit (strL r"YEAR_OF_BIRTH") (ws0 t1)
    let _ ← lit (strL r")") (ws0 t2)
    pure ()).isSome

/-- Regex `(min|max)\s*\(\s*year_of_birth\s*\)`, IGNORECASE. -/
def matchMinMaxYob (s : List Char) : Bool :=
  (match lit (strL r"MIN") s with
   | some t => matchMinMaxTail t
   | none => false)
  || (match lit (strL r"MAX") s with
      | some t => matchMinMaxTail t
      | none => false)

/-- Regex `LIMIT\s+(\d+)` over the upper-cased query (case-sensitive in the
source, but the subject is already upper-cased), returning the value. -/
def matchLimitNum (s : List Char) : Option Nat := do
  let t1 ← lit (strL r"LIMIT") s
  let t2 ← ws1 t1
  let (v, _) ← digits1 t2
  pure v

/-! ## Rate limiting (security.py, class RateLimiter)

Timestamps are modelled as integers (`time.time()` returns a real number;
only ordering and fixed offsets are ever used). -/

structure RateLimiterState where
  maxPerHour : Nat
  maxPerMinute : Nat
  queryTimes : List Int
deriving DecidableEq

/-- `RateLimiter.check_rate_limit`: prunes entries older than one hour
(note: this reassigns `self._query_times`, a mutation), then checks the
hourly and per-minute caps.  Returns the (allowed, message) pair and the
state of the limiter after the call. -/
def check_rate_limit (s : RateLimiterState) (now : Int) : (Bool × List Char) × RateLimiterState :=
  let pruned := s.queryTimes.filter (fun t => now - 3600 < t)
  let s2 : RateLimiterState := { s with queryTimes := pruned }
  if s.maxPerHour ≤ pruned.length then
    ((false, strL r"Rate limit exceeded: " ++ natChars s.maxPerHour ++ strL r" queries/hour. Please wait."), s2)
  else if s.maxPerMinute ≤ (pruned.filter (fun t => now - 60 < t)).length then
    ((false, strL r"Rate limit exceeded: " ++ natChars s.maxPerMinute ++ strL r" queries/minute. Please slow down."), s2)
  else ((true, strL r"OK"), s2)

/-- `RateLimiter.record_query`: appends `time.time()`; no pruning. -/
def record_query (s : RateLimiterState) (now : Int) : RateLimiterState :=
  { s with queryTimes := s.queryTimes ++ [now] }

/-! ## Privacy-preserving audit log (security.py, class QueryAuditLog) -/

structure AuditEntry where
  timestamp : Int
  queryHash : List Char
  tablesAccessed : List (List Char)
  queryType : List Char
  success : Bool
  errorType : Option (List Char)
  executionTimeMs : Option Int
deriving DecidableEq

/-- Python regex class `\w` (ASCII part), for the word boundaries of
`_sanitize_error`. -/
def isWordChar (c : Char) : Bool := c.isAlpha || c.isDigit || c = '_'

/-- Split into maximal runs of digits / non-digits (helper for the
`\b\d{5,}\b` substitution of `_sanitize_error`). -/
def chunks : List Char → List (List Char)
  | [] => []
  | c :: rest =>
    match chunks rest with
    | [] => [[ c ]]
    | h :: t =>
      match h with
      | [] => [ c ] :: h :: t
      | d :: _ => if c.isDigit = d.isDigit then (c :: h) :: t else [ c ] :: h :: t

/-- `re.sub(r"\b\d{5,}\b", "[ID_REDACTED]", ·)` over the chunk list: a
maximal digit run of length at least five whose neighbouring characters are
non-word characters (or absent) is replaced. -/
def redactIdsChunks : Option Char → List (List Char) → List Char
  | _, [] => []
  | prev, ch :: rest =>
    match ch with
    | [] => redactIdsChunks prev rest
    | c :: _ =>
      let lastc := ch.getLastD c
      if c.isDigit then
        let okL := match prev with | none => true | some p => !(isWordChar p)
        let okR := match rest with
                   | [] => true
                   | nxt :: _ => match nxt with | [] => true | d :: _ => !(isWordChar d)
        if 5 ≤ ch.length && okL && okR then
          strL r"[ID_REDACTED]" ++ redactIdsChunks (some lastc) rest
        else ch ++ redactIdsChunks (some lastc) rest
      else ch ++ redactIdsChunks (some lastc) rest

/-- `re.sub(r"\b\d{5,}\b", "[ID_REDACTED]", ·)`. -/
def redactIds (s : List Char) : List Char := redactIdsChunks none (chunks s)

/-- Split at single quotes (helper for the quoted-literal substitution). -/
def splitQ : List Char → List (List Char)
  | [] => [[]]
  | c :: rest =>
    let r := splitQ rest
    if c = '\'' then [] :: r
    else
      match r with
      | [] => [[ c ]]
      | h :: t => (c :: h) :: t

/-- Rejoin the quote-split parts, replacing each non-overlapping `'[^']*'`
match by the redaction marker; a final unpaired quote is kept literally. -/
def rejoinRedact : List (List Char) → List Char
  | [] => []
  | [p] => p
  | p :: q2 :: rest =>
    match rest with
    | [] => p ++ ('\'' :: q2)
    | _ :: _ => p ++ strL r"[VALUE_REDACTED]" ++ rejoinRedact rest

/-- `re.sub(r"'[^']*'", "[VALUE_REDACTED]", ·)`. -/
def redactQuoted (s : List Char) : List Char := rejoinRedact (splitQ s)

/-- `QueryAuditLog._sanitize_error`: redact long numeric tokens, then quoted
values, then truncate to 200 characters. -/
def sanitize_error (e : List Char) : List Char :=
  (redactQuoted (redactIds e)).take 200

/-- The entry built by `QueryAuditLog.log_query` (the timestamp comes from
the external clock; `query_hash[:16]` truncates the stored fingerprint;
an empty error message counts as absent, as with Python truthiness). -/
def mkAuditEntry (ts : Int) (query_hash : List Char) (tables : List (List Char))
    (qtype : List Char) (success : Bool) (errMsg : Option (List Char))
    (ms : Option Int) : AuditEntry :=
  { timestamp := ts
    queryHash := query_hash.take 16
    tablesAccessed := tables
    queryType := qtype
    success := success
    errorType := match errMsg with
                 | some e => if e = [] then none else some (sanitize_error e)
                 | none => none
    executionTimeMs := ms }

/-- `QueryAuditLog.log_query`: append the metadata entry, then keep only the
last 1000 entries.  (The optional best-effort file write is external I/O and
has no effect on the in-memory log.) -/
def log_query (entries : List AuditEntry) (ts : Int) (query_hash : List Char)
    (tables : List (List Char)) (qtype : List Char) (success : Bool)
    (errMsg : Option (List Char)) (ms : Option Int) : List AuditEntry :=
  let es := entries ++ [mkAuditEntry ts query_hash tables qtype success errMsg ms]
  if 1000 < es.length then es.drop (es.length - 1000) else es

/-- `get_query_hash`: the sha256 hex digest of the query, supplied as an
oracle `h` (its output is always 64 hex characters). -/
def get_query_hash (h : List Char → List Char) (q : List Char) : List Char := h q

/-- `log_query_execution`: hash the query and log the metadata. -/
def log_query_execution (h : List Char → List Char) (entries : List AuditEntry)
    (ts : Int) (q : List Char) (tables : List (List Char)) (qtype : List Char)
    (success : Bool) (errMsg : Option (List Char)) (ms : Option Int) : List AuditEntry :=
  log_query entries ts (get_query_hash h q) tables qtype success errMsg ms

/-! ## SQL security validation (security.py, validate_query_security)

`sqlparse` is an external library; its observable contribution to
`validate_query_security` — the number of parsed statements, the statement
type of `statement.get_type()` and the table names lexically extracted by
`_extract_tables_from_query` — is supplied as a `ParseOutcome` oracle.
`ParseOutcome.raised` models any exception escaping into the function's
`try`/`except` (which returns a denial). -/

inductive ParseOutcome where
  | raised (emsg : List Char)
  | parsed (numStatements : Nat) (stmtType : List Char) (tables : List (List Char))
deriving DecidableEq

/-- `sql_upper = sql_query.strip().upper()`. -/
def sqlUpper (q : List Char) : List Char := pupper (pstrip q)

/-- The `write_operations` set of RULE 2 (iteration order of the Python set
is irrelevant to the decision; the source listing order is used here). -/
def writeOperations : List (List Char) :=
  [strL r"INSERT", strL r"UPDATE", strL r"DELETE", strL r"DROP", strL r"CREATE",
   strL r"ALTER", strL r"TRUNCATE", strL r"REPLACE", strL r"MERGE", strL r"EXEC",
   strL r"EXECUTE", strL r"GRANT", strL r"REVOKE", strL r"INTO OUTFILE",
   strL r"INTO DUMPFILE"]

/-- The 13 data-definition/manipulation/privilege verbs named by the claim
(the two INTO … redirection constructs contain a space and cannot be a verb). -/
def writeVerbs : List (List Char) :=
  [strL r"INSERT", strL r"UPDATE", strL r"DELETE", strL r"DROP", strL r"CREATE",
   strL r"ALTER", strL r"TRUNCATE", strL r"REPLACE", strL r"MERGE", strL r"EXEC",
   strL r"EXECUTE", strL r"GRANT", strL r"REVOKE"]

/-- `f" {l} "`. -/
def spaceWrap (l : List Char) : List Char := ' ' :: (l ++ [ ' ' ])

/-- RULE 2 test for one operation: `f" {op} " in f" {sql_upper} " or
sql_upper.startswith(op)`. -/
def writeOpPred (up op : List Char) : Bool :=
  containsSub (spaceWrap op) (spaceWrap up) || startsL op up

/-- First write operation the query trips over, if any. -/
def writeOpHit (up : List Char) : Option (List Char) :=
  writeOperations.find? (writeOpPred up)

/-- RULE 3: the ordered injection-signature table; first hit wins. -/
def injectionHit (up : List Char) : Option (List Char) :=
  if searchFound matchSemiDashDash up then some (strL r"SQL comment injection")
  else if searchFound matchSemiBlock up then some (strL r"SQL block comment injection")
  else if searchFound matchUnionSelect up then some (strL r"UNION injection")
  else if searchFound matchOrInj up then some (strL r"OR injection")
  else if searchFound matchAndInj up then some (strL r"AND injection")
  else if searchFound matchWaitforDelay up then some (strL r"Time-based injection")
  else if searchFound (matchNameParen (strL r"BENCHMARK")) up then some (strL r"Benchmark injection")
  else if searchFound (matchNameParen (strL r"SLEEP")) up then some (strL r"Sleep injection")
  else if searchFound (matchNameParen (strL r"LOAD_FILE")) up then some (strL r"File access injection")
  else none

/-- The quasi-identifier list of `_check_reidentification_risk` Pattern 5. -/
def quasiIdentifiers : List (List Char) :=
  [strL r"year_of_birth", strL r"gender", strL r"race", strL r"ethnicity",
   strL r"zip", strL r"city"]

/-- Number of quasi-identifiers occurring in `sql_query.lower()`. -/
def qiCount (lq : List Char) : Nat :=
  (quasiIdentifiers.filter (fun w => containsSub w lq)).length

/-- Pattern 4: extreme-value searches (these three ARE searched with
`re.IGNORECASE`). -/
def extremeHit (up : List Char) : Option (List Char) :=
  if searchFound (matchOrderByLimit1 (strL r"YEAR_OF_BIRTH")) up then
    some (strL r"oldest/youngest person")
  else if searchFound (matchOrderByLimit1 (strL r"AGE")) up then
    some (strL r"oldest/youngest person")
  else if searchFound matchMinMaxYob up then some (strL r"extreme birth year")
  else none

/-- `_check_reidentification_risk(sql_query, sql_upper)`.  Patterns 1-3 are
searched without IGNORECASE: their lower-case literals are matched
case-sensitively against the upper-cased text, exactly as in the source.
Pattern 5 likewise compares the lower-case literals "group by"/"count("
against `sql_upper`.  (Pattern 6 only logs a warning and has no effect on
the returned value.) -/
def check_reidentification_risk (q up : List Char) : Bool × List Char :=
  if searchFound matchWherePersonId up then
    (false, strL r"Direct person_id lookup not allowed. Use aggregated queries.")
  else if searchFound matchHavingCountEq1 up then
    (false, strL r"Queries finding unique records pose re-identification risk")
  else if (match searchCapture matchHavingCountLt up with
           | some k => decide (k < MIN_GROUP_SIZE)
           | none => false) then
    (false, strL r"Minimum group size is " ++ natChars MIN_GROUP_SIZE ++ strL r" for privacy protection")
  else
    match extremeHit up with
    | some d => (false, strL r"Query targets " ++ d ++ strL r" - potential re-identification risk")
    | none =>
      if 3 ≤ qiCount (plower q)
          && !(containsSub (strL r"group by") up)
          && !(containsSub (strL r"count(") up) then
        (false, strL r"Selecting multiple quasi-identifiers without aggregation poses re-identification risk")
      else (true, strL r"No re-identification risk detected")

/-- RULE 5 denial message. -/
def limitRequiredMsg : List Char :=
  strL r"Query must include LIMIT clause (max " ++ natChars MAX_QUERY_ROWS ++ strL r" rows)"

/-- The body of `validate_query_security` after a successful parse of the
non-empty query into exactly `n` statements of type `ty`. -/
def validateParsed (n : Nat) (ty : List Char) (tables : List (List Char))
    (q : List Char) : Bool × List Char × List (List Char) :=
  if n = 0 then (false, strL r"Invalid SQL syntax", [])
  else if 1 < n then (false, strL r"Multiple statements not allowed (potential SQL injection)", [])
  else if ty = strL r"SELECT" ∨ ty = strL r"UNKNOWN" then
    (if startsL (strL r"PRAGMA") (sqlUpper q) then
      (false, strL r"PRAGMA statements not allowed on BigQuery", tables)
     else
      match writeOpHit (sqlUpper q) with
      | some op => (false, strL r"Write operation not allowed: " ++ op, tables)
      | none =>
        match injectionHit (sqlUpper q) with
        | some d => (false, strL r"Injection pattern detected: " ++ d, tables)
        | none =>
          if (check_reidentification_risk q (sqlUpper q)).fst then
            (if containsSub (strL r"LIMIT") (sqlUpper q) then
              (match searchCapture matchLimitNum (sqlUpper q) with
               | some v =>
                 if MAX_QUERY_ROWS < v then
                   (false, strL r"LIMIT exceeds maximum allowed (" ++ natChars MAX_QUERY_ROWS ++ strL r")", tables)
                 else (true, strL r"Query passed security validation", tables)
               | none => (true, strL r"Query passed security validation", tables))
             else (false, limitRequiredMsg, tables))
          else (false, (check_reidentification_risk q (sqlUpper q)).snd, tables))
  else (false, strL r"Only SELECT queries allowed. Got: " ++ ty, tables)

/-- `validate_query_security(sql_query)`: (is_safe, message, tables). -/
def validate_query_security (po : ParseOutcome) (q : List Char) :
    Bool × List Char × List (List Char) :=
  if pstrip q = [] then (false, strL r"Empty query", [])
  else
    match po with
    | .raised emsg => (false, strL r"Security validation failed: " ++ emsg, [])
    | .parsed n ty tables => validateParsed n ty tables q

/-! ## EULA compliance and the policy orchestrator (security.py) -/

/-- `"; ".join(issues)`. -/
def joinSemi : List (List Char) → List Char
  | [] => []
  | [x] => x
  | x :: y :: rest => x ++ strL r"; " ++ joinSemi (y :: rest)

/-- `check_eula_compliance`: `is_within_datathon_period()` and
`validate_bigquery_config()` probe the clock and the environment; their
outcomes are passed in as `periodOk` and `(bqOk, bqMsg)`. -/
def check_eula_compliance (periodOk bqOk : Bool) (bqMsg : List Char) : Bool × List Char :=
  let issues : List (List Char) :=
    (if periodOk then [] else [strL r"Outside datathon period (January-February 2026)"])
    ++ (if bqOk then [] else [strL r"BigQuery not configured: " ++ bqMsg])
  if issues = [] then (true, strL r"EULA compliance verified")
  else (false, strL r"EULA compliance issues: " ++ joinSemi issues)

/-- `enforce_security(sql_query)`: rate limit (fail closed), EULA compliance
(result only logged as a warning, never blocking), query validation (fail
closed), then record the query against the rate limiter.  Returns the
(allowed, message, tables) decision and the limiter state after the call. -/
def enforce_security (po : ParseOutcome) (q : List Char) (s : RateLimiterState)
    (now : Int) (periodOk bqOk : Bool) (bqMsg : List Char) :
    (Bool × List Char × List (List Char)) × RateLimiterState :=
  match check_rate_limit s now with
  | ((rateOk, rateMsg), s1) =>
    if rateOk then
      let _eula := check_eula_compliance periodOk bqOk bqMsg
      match validate_query_security po q with
      | (ok, msg, tables) =>
        if ok then ((true, strL r"Security checks passed", tables), record_query s1 now)
        else ((false, msg, tables), s1)
    else ((false, rateMsg, []), s1)

/-! ## Secure result handling (security.py, check_result_privacy)

A result set is a list of column names and a list of rows of (numeric)
values — `check_result_privacy` only ever inspects the row count, the
column names and the minimum of count-named columns.  The `fault` flag
models an exception escaping into the function's `try`, which the
`except` handler turns into a release (fail open). -/

structure ResultFrame where
  columns : List (List Char)
  rows : List (List Int)
deriving DecidableEq

/-- Minimum of a list of values (only applied to non-empty columns). -/
def listMin : List Int → Int
  | [] => 0
  | x :: xs => xs.foldl min x

/-- The values of column `i`. -/
def colValues (f : ResultFrame) (i : Nat) : List Int :=
  f.rows.map (fun row => row.getD i 0)

/-- `result_df[col].min()` for column index `i`. -/
def colMin (f : ResultFrame) (i : Nat) : Int := listMin (colValues f i)

/-- `"count" in [col.lower() for col in result_df.columns]`: some column is
named exactly "count" (case-insensitively).  This EXACT-membership test
gates the whole small-group check in the source. -/
def hasExactCountCol (cols : List (List Char)) : Bool :=
  cols.any (fun c => plower c = strL r"count")

/-- Some column whose lower-cased name CONTAINS "count" has minimum below
`MIN_GROUP_SIZE` (the loop body of Check 2). -/
def smallCountColExists (f : ResultFrame) : Bool :=
  (List.range f.columns.length).any (fun i =>
    containsSub (strL r"count") (plower (f.columns.getD i []))
    && decide (colMin f i < (MIN_GROUP_SIZE : Int)))

/-- `check_result_privacy(result_df, query)`: (safe_to_return, warning). -/
def check_result_privacy (fault : Bool) (rf : Option ResultFrame) (q : List Char) :
    Bool × List Char :=
  if fault then (true, [])
  else
    match rf with
    | none => (true, [])
    | some f =>
      if f.rows.length = 0 then (true, [])
      else if f.rows.length = 1
          && containsSub (strL r"GROUP BY") (pupper q)
          && !(containsSub (strL r"COUNT") (pupper q)) then
        (false, strL r"Query returned single record - potential privacy risk")
      else if hasExactCountCol f.columns && smallCountColExists f then
        (false, strL r"Results contain groups smaller than " ++ natChars MIN_GROUP_SIZE ++ strL r" - suppressed for privacy")
      else (true, [])

/-- The first word of the stripped, upper-cased query: the statement's verb,
as the claims use the term. -/
def queryVerb (q : List Char) : List Char :=
  (sqlUpper q).takeWhile (fun c => !(isSpaceChar c))

/-! ## Concrete inputs used by counterexamples and witnesses -/

/-- The direct person_id lookup of the spec's example table (also the input
of the repository test `test_blocks_direct_patient_lookup`). -/
def c1Query : List Char := strL r"SELECT * FROM person WHERE person_id = 12345 LIMIT 10"

/-- The unique-record query of the spec's example table (also the input of
`test_blocks_unique_record_queries`). -/
def c2QueryEq1 : List Char := strL r"SELECT * FROM person GROUP BY 1 HAVING COUNT(*) = 1 LIMIT 100"

/-- The small-group query of the spec's example table (also the input of
`test_blocks_small_group_queries`). -/
def c2QueryLt3 : List Char := strL r"SELECT * FROM person GROUP BY 1 HAVING COUNT(*) < 3 LIMIT 100"

/-- A fresh rate limiter with the default caps of the module-level singleton. -/
def freshLimiter : RateLimiterState := ⟨100, 10, []⟩

/-- A limiter state holding one timestamp that is over an hour old at
time 4000. -/
def c3State : RateLimiterState := ⟨100, 10, [0]⟩

/-- A SELECT query without LIMIT that trips the write-operation rule. -/
def c5Query : List Char := strL r"SELECT GRANT FROM t"

/-- A one-row grouped result whose only count-like column is named
patient_count (and no column is named exactly count). -/
def c6Frame : ResultFrame := ⟨[strL r"gender", strL r"patient_count"], [[1, 2]]⟩

/-- The grouped counting query producing `c6Frame`. -/
def c6Query : List Char :=
  strL r"SELECT gender, COUNT(*) AS patient_count FROM person GROUP BY gender LIMIT 100"

/-- Modelled from the claim wording of C6 (not from the source): veto
exactly when the result has exactly one row and the query text contains
GROUP BY without a COUNT aggregate, or when the minimum value of some
count-like result column (name containing "count") is strictly below
`MIN_GROUP_SIZE`. -/
def specResultVeto (rf : Option ResultFrame) (q : List Char) : Bool :=
  match rf with
  | none => false
  | some f =>
    (decide (f.rows.length = 1)
      && containsSub (strL r"GROUP BY") (pupper q)
      && !(containsSub (strL r"COUNT") (pupper q)))
    || (decide (f.rows.length ≠ 0)
        && (List.range f.columns.length).any (fun i =>
             containsSub (strL r"count") (plower (f.columns.getD i []))
             && decide (colMin f i < (MIN_GROUP_SIZE : Int))))

/-! ## Helper lemmas -/

/-- The first `takeWhile` segment of a list is one of its prefixes. -/
lemma startsL_takeWhile (p : Char → Bool) (l : List Char) :
    startsL (l.takeWhile p) l = true := by
  induction l with
  | nil => rfl
  | cons c rest ih =>
    by_cases hc : p c
    · simp [List.takeWhile_cons, hc, startsL, ih]
    · simp [List.takeWhile_cons, hc, startsL]

/-- A failed `find?` means no element satisfies the predicate. -/
lemma find_none_all {α : Type} (p : α → Bool) (l : List α) (h : l.find? p = none) :
    ∀ x ∈ l, p x = false := by
  induction l with
  | nil => intro x hx; cases hx
  | cons a as ih =>
    intro x hx
    cases hpa : p a with
    | true => simp [List.find?, hpa] at h
    | false =>
      have htail : as.find? p = none := by simpa [List.find?, hpa] using h
      rcases List.mem_cons.mp hx with rfl | hxs
      · exact hpa
      · exact ih htail x hxs

/-- Every claim verb is one of the source's write operations. -/
lemma writeVerbs_sub : ∀ v ∈ writeVerbs, v ∈ writeOperations := by decide

/-- A query whose verb is a write verb trips the write-operation rule. -/
lemma verb_write_hit (q : List Char) (h : queryVerb q ∈ writeVerbs) :
    writeOpHit (sqlUpper q) ≠ none := by
  intro hnone
  have hall := find_none_all (writeOpPred (sqlUpper q)) writeOperations hnone
  have hpred := hall (queryVerb q) (writeVerbs_sub (queryVerb q) h)
  have hs : startsL (queryVerb q) (sqlUpper q) = true := by
    unfold queryVerb
    exact startsL_takeWhile _ _
  simp [writeOpPred, hs] at hpred

/-- Shape of the state returned by `check_rate_limit`: the pruned window. -/
lemma crl_snd (s : RateLimiterState) (now : Int) :
    (check_rate_limit s now).snd
      = { s with queryTimes := s.queryTimes.filter (fun t => now - 3600 < t) } := by
  simp only [check_rate_limit]
  split_ifs <;> rfl

/-- Anything a successful `validate_query_security` run guarantees: no write
operation, no injection signature, a clean risk check, a present LIMIT and a
LIMIT value within the cap. -/
lemma validate_true_shape (po : ParseOutcome) (q : List Char)
    (h : (validate_query_security po q).fst = true) :
    writeOpHit (sqlUpper q) = none
    ∧ injectionHit (sqlUpper q) = none
    ∧ (check_reidentification_risk q (sqlUpper q)).fst = true
    ∧ containsSub (strL r"LIMIT") (sqlUpper q) = true
    ∧ (∀ v, searchCapture matchLimitNum (sqlUpper q) = some v → v ≤ MAX_QUERY_ROWS) := by
  unfold validate_query_security at h
  split at h
  · simp at h
  · split at h
    · simp at h
    · rename_i n ty tables heq
      unfold validateParsed at h
      split at h
      · simp at h
      · split at h
        · simp at h
        · split at h
          · split at h
            · simp at h
            · split at h
              · simp at h
              · rename_i hop
                split at h
                · simp at h
                · rename_i hinj
                  split at h
                  · rename_i hrr
                    split at h
                    · rename_i hlim
                      refine ⟨hop, hinj, hrr, hlim, ?_⟩
                      intro v hv
                      split at h
                      · rename_i v2 hv2
                        rw [hv] at hv2
                        injection hv2 with hvv
                        subst hvv
                        split at h
                        · simp at h
                        · rename_i hgt
                          exact Nat.not_lt.mp hgt
                      · rename_i hnone
                        rw [hv] at hnone
                        cases hnone
                    · simp at h
                  · simp at h
          · simp at h

/-- The validator denies whenever the write-operation rule has a hit. -/
lemma validate_denies_of_writeOpHit (po : ParseOutcome) (q : List Char)
    (hne : writeOpHit (sqlUpper q) ≠ none) :
    (validate_query_security po q).fst = false := by
  cases hfst : (validate_query_security po q).fst
  · rfl
  · exact absurd (validate_true_shape po q hfst).1 hne

/-! ## Claim theorems -/

/-- C1 (code_bug evidence): on the direct person_id lookup
`SELECT * FROM person WHERE person_id = 12345 LIMIT 10` (one parsed SELECT
statement over table person, exactly what sqlparse reports), the code
ALLOWS the query: `validate_query_security` returns is_safe with the pass
message, and `enforce_security` passes it and records it against a fresh
rate limiter — the lower-case re-identification regexes can never match the
upper-cased text, so the claimed denial does not happen. -/
theorem c1_code_allows_person_id_lookup :
    validate_query_security (.parsed 1 (strL r"SELECT") [strL r"person"]) c1Query
      = (true, strL r"Query passed security validation", [strL r"person"])
    ∧ (enforce_security (.parsed 1 (strL r"SELECT") [strL r"person"]) c1Query
        freshLimiter 0 true true []).fst.fst = true := by
  constructor
  · decide
  · decide

/-- C2 (code_bug evidence): the unique-record query
(`HAVING COUNT(*) = 1`) and the small-group query (`HAVING COUNT(*) < 3`,
threshold 5) are both ALLOWED by `validate_query_security`, and
`enforce_security` passes the first one — the lower-case HAVING regexes
can never match the upper-cased text, so the claimed denials do not happen. -/
theorem c2_code_allows_unique_group_queries :
    (validate_query_security (.parsed 1 (strL r"SELECT") [strL r"person"]) c2QueryEq1).fst = true
    ∧ (validate_query_security (.parsed 1 (strL r"SELECT") [strL r"person"]) c2QueryLt3).fst = true
    ∧ (enforce_security (.parsed 1 (strL r"SELECT") [strL r"person"]) c2QueryEq1
        freshLimiter 0 true true []).fst.fst = true := by
  refine ⟨by decide, by decide, by decide⟩

/-- C3 (counterexample): `check_rate_limit` is NOT a pure read — on a
limiter holding the timestamp 0, checking at time 4000 prunes the entry
and leaves a different state. -/
theorem c3_check_mutates_counterexample :
    (check_rate_limit c3State 4000).snd ≠ c3State := by decide

/-- C3 (amended): `check_rate_limit` prunes the timestamps that are not
strictly within the hour window (its only mutation; the caps are
untouched), while `record_query` appends the current time and prunes
nothing. -/
theorem c3_amended_check_prunes_record_appends (s : RateLimiterState) (now : Int) :
    (check_rate_limit s now).snd.queryTimes
        = s.queryTimes.filter (fun t => now - 3600 < t)
    ∧ (check_rate_limit s now).snd.maxPerHour = s.maxPerHour
    ∧ (check_rate_limit s now).snd.maxPerMinute = s.maxPerMinute
    ∧ (record_query s now).queryTimes = s.queryTimes ++ [now]
    ∧ (record_query s now).maxPerHour = s.maxPerHour
    ∧ (record_query s now).maxPerMinute = s.maxPerMinute := by
  refine ⟨?_, ?_, ?_, rfl, rfl, rfl⟩ <;> rw [crl_snd]

/-- C7: an internal evaluation error makes `check_result_privacy` release
the result (fail open), while an exception inside `validate_query_security`
yields a denial (fail closed). -/
theorem c7_fail_open_auditor_fail_closed_validator
    (rf : Option ResultFrame) (q q2 emsg : List Char) :
    check_result_privacy true rf q = (true, [])
    ∧ (validate_query_security (.raised emsg) q2).fst = false := by
  constructor
  · rfl
  · unfold validate_query_security
    split
    · rfl
    · rfl

/-- C10: a missing or empty result is always released with an empty
warning, whatever the query and whether or not the check faulted. -/
theorem c10_empty_result_released (fault : Bool) (rf : Option ResultFrame)
    (q : List Char) (h : rf = none ∨ ∃ f, rf = some f ∧ f.rows = []) :
    check_result_privacy fault rf q = (true, []) := by
  cases fault
  · rcases h with rfl | ⟨f, rfl, hf⟩
    · rfl
    · simp [check_result_privacy, hf]
  · rfl

/-- C10 witness: the theorem applied to the absent result. -/
theorem c10_empty_result_released_witness :
    check_result_privacy false none (strL r"SELECT 1") = (true, []) :=
  c10_empty_result_released false none (strL r"SELECT 1") (Or.inl rfl)

/-- C4: whatever sqlparse reports, whatever the limiter state, the clock
and the compliance probes say, a query whose verb is one of the 13
data-definition/manipulation/privilege verbs is denied by
`enforce_security`. -/
theorem c4_write_verbs_denied (po : ParseOutcome) (q : List Char)
    (s : RateLimiterState) (now : Int) (periodOk bqOk : Bool) (bqMsg : List Char)
    (h : queryVerb q ∈ writeVerbs) :
    (enforce_security po q s now periodOk bqOk bqMsg).fst.fst = false := by
  have hval := validate_denies_of_writeOpHit po q (verb_write_hit q h)
  simp only [enforce_security]
  split_ifs with h1 h2
  · rw [hval] at h2
    cases h2
  · rfl
  · rfl

/-- C4 witness: the theorem applied to `DROP TABLE person`. -/
theorem c4_write_verbs_denied_witness :
    queryVerb (strL r"DROP TABLE person") ∈ writeVerbs
    ∧ (enforce_security (.parsed 1 (strL r"DROP") []) (strL r"DROP TABLE person")
        freshLimiter 0 true true []).fst.fst = false :=
  ⟨by decide,
   c4_write_verbs_denied (.parsed 1 (strL r"DROP") []) (strL r"DROP TABLE person")
     freshLimiter 0 true true [] (by decide)⟩

/-- C5 (counterexample): `SELECT GRANT FROM t` contains no LIMIT clause and
is denied, but its denial reason (the write-operation message) does not
mention LIMIT in any letter case — refuting the claim that every no-LIMIT
denial carries a LIMIT-mentioning reason. -/
theorem c5_reason_counterexample :
    containsSub (strL r"LIMIT") (sqlUpper c5Query) = false
    ∧ (validate_query_security (.parsed 1 (strL r"SELECT") [strL r"t"]) c5Query).fst = false
    ∧ containsSub (strL r"LIMIT")
        (pupper (validate_query_security (.parsed 1 (strL r"SELECT") [strL r"t"]) c5Query).snd.fst)
        = false := by
  refine ⟨by decide, by decide, by decide⟩

/-- C5 (amended): every query without a LIMIT token is denied; every query
whose (leftmost) parsed LIMIT value exceeds `MAX_QUERY_ROWS` is denied;
and when no earlier rule fires, the no-LIMIT denial carries exactly the
LIMIT-mentioning reason. -/
theorem c5_amended_limit_enforcement :
    (∀ (po : ParseOutcome) (q : List Char),
      containsSub (strL r"LIMIT") (sqlUpper q) = false →
      (validate_query_security po q).fst = false)
    ∧ (∀ (po : ParseOutcome) (q : List Char) (v : Nat),
        searchCapture matchLimitNum (sqlUpper q) = some v → MAX_QUERY_ROWS < v →
        (validate_query_security po q).fst = false)
    ∧ (∀ (ty : List Char) (tables : List (List Char)) (q : List Char),
        pstrip q ≠ [] →
        (ty = strL r"SELECT" ∨ ty = strL r"UNKNOWN") →
        startsL (strL r"PRAGMA") (sqlUpper q) = false →
        writeOpHit (sqlUpper q) = none →
        injectionHit (sqlUpper q) = none →
        (check_reidentification_risk q (sqlUpper q)).fst = true →
        containsSub (strL r"LIMIT") (sqlUpper q) = false →
        validate_query_security (.parsed 1 ty tables) q = (false, limitRequiredMsg, tables)
          ∧ containsSub (strL r"LIMIT") limitRequiredMsg = true) := by
  refine ⟨?_, ?_, ?_⟩
  · intro po q hno
    cases hfst : (validate_query_security po q).fst
    · rfl
    · rw [(validate_true_shape po q hfst).2.2.2.1] at hno
      cases hno
  · intro po q v hv hgt
    cases hfst : (validate_query_security po q).fst
    · rfl
    · have := (validate_true_shape po q hfst).2.2.2.2 v hv
      omega
  · intro ty tables q hne hty hpr hw hi hrr hno
    constructor
    · simp [validate_query_security, hne, validateParsed, hty, hpr, hw, hi, hrr, hno]
    · decide

/-- C5 amended witness: the three parts applied to concrete queries:
`SELECT * FROM person` (no LIMIT, clean of every earlier rule) and
`SELECT * FROM person LIMIT 999999` (cap 1000). -/
theorem c5_amended_limit_enforcement_witness :
    (validate_query_security (.parsed 1 (strL r"SELECT") [strL r"person"])
        (strL r"SELECT * FROM person")).fst = false
    ∧ (validate_query_security (.parsed 1 (strL r"SELECT") [strL r"person"])
        (strL r"SELECT * FROM person LIMIT 999999")).fst = false
    ∧ validate_query_security (.parsed 1 (strL r"SELECT") [strL r"person"])
        (strL r"SELECT * FROM person")
        = (false, limitRequiredMsg, [strL r"person"]) :=
  ⟨c5_amended_limit_enforcement.1 (.parsed 1 (strL r"SELECT") [strL r"person"])
      (strL r"SELECT * FROM person") (by decide),
   c5_amended_limit_enforcement.2.1 (.parsed 1 (strL r"SELECT") [strL r"person"])
      (strL r"SELECT * FROM person LIMIT 999999") 999999 (by decide) (by decide),
   (c5_amended_limit_enforcement.2.2 (strL r"SELECT") [strL r"person"]
      (strL r"SELECT * FROM person") (by decide) (by decide) (by decide) (by decide)
      (by decide) (by decide) (by decide)).1⟩

set_option maxRecDepth 8000 in
/-- C6 (counterexample): a one-row grouped counting result whose count-like
column patient_count has minimum 2 (below the threshold 5) — the claim's
condition demands a veto, but the code releases it, because no column is
named exactly "count" and that exact-name membership test gates the whole
small-group check. -/
theorem c6_count_gate_counterexample :
    specResultVeto (some c6Frame) c6Query = true
    ∧ (check_result_privacy false (some c6Frame) c6Query).fst = true := by
  refine ⟨by decide, by decide⟩

/-- C6 (amended): `check_result_privacy` (absent an internal fault) vetoes
exactly when the result is present and non-empty and either (a) it has
exactly one row and the query contains GROUP BY without the substring
COUNT, or (b) some column is named exactly "count" (case-insensitively)
AND some column whose name contains "count" has minimum below
`MIN_GROUP_SIZE`. -/
theorem c6_amended_result_privacy_iff (rf : Option ResultFrame) (q : List Char) :
    (check_result_privacy false rf q).fst = false ↔
      (∃ f, rf = some f ∧ f.rows.length ≠ 0 ∧
        ((f.rows.length = 1
            ∧ containsSub (strL r"GROUP BY") (pupper q) = true
            ∧ containsSub (strL r"COUNT") (pupper q) = false)
         ∨ (hasExactCountCol f.columns = true ∧ smallCountColExists f = true))) := by
  cases rf with
  | none => simp [check_result_privacy]
  | some f =>
    simp only [check_result_privacy, Bool.if_false_left]
    split_ifs with h0 h1 h2 <;>
      simp_all [Bool.and_eq_true, Bool.not_eq_true]

/-- C8: one `log_query_execution` append, starting from any log within
capacity: the new log is exactly the old log plus the new entry with the
oldest entries (and only those) dropped once the 1000-entry cap is
exceeded; the log stays within capacity; the stored fingerprint is the
16-character truncation of the 64-character digest — in particular no text
longer than 16 characters (such as any non-trivial query) can occur in it. -/
theorem c8_audit_log_invariant (entries : List AuditEntry) (ts : Int)
    (h : List Char → List Char) (q : List Char) (tables : List (List Char))
    (qtype : List Char) (success : Bool) (errMsg : Option (List Char))
    (ms : Option Int) (hlen : (h q).length = 64) (hcap : entries.length ≤ 1000) :
    log_query_execution h entries ts q tables qtype success errMsg ms
        = (entries ++ [mkAuditEntry ts (h q) tables qtype success errMsg ms]).drop
            ((entries.length + 1) - 1000)
    ∧ (log_query_execution h entries ts q tables qtype success errMsg ms).length ≤ 1000
    ∧ (mkAuditEntry ts (h q) tables qtype success errMsg ms).queryHash.length = 16
    ∧ (∀ t : List Char, 16 < t.length →
        ¬ t <:+: (mkAuditEntry ts (h q) tables qtype success errMsg ms).queryHash) := by
  have hq : (mkAuditEntry ts (h q) tables qtype success errMsg ms).queryHash.length = 16 := by
    simp [mkAuditEntry, List.length_take, hlen]
  refine ⟨?_, ?_, hq, ?_⟩
  · have hl : (entries ++ [mkAuditEntry ts (h q) tables qtype success errMsg ms]).length
        = entries.length + 1 := by
      simp only [List.length_append, List.length_cons, List.length_nil]
    simp only [log_query_execution, get_query_hash, log_query, hl]
    split_ifs with hover
    · rfl
    · have hz : entries.length + 1 - 1000 = 0 := by omega
      rw [hz, List.drop_zero]
  · simp only [log_query_execution, get_query_hash, log_query]
    split_ifs with hover <;>
      simp only [List.length_drop, List.length_append, List.length_cons,
        List.length_nil] at hover ⊢ <;> omega
  · intro t ht hinf
    obtain ⟨u, v, huv⟩ := hinf
    have := congrArg List.length huv
    simp only [List.length_append, hq] at this
    omega

/-- C8 witness: the theorem applied to an empty log, a 64-character digest
oracle and a concrete query. -/
theorem c8_audit_log_invariant_witness :
    log_query_execution (fun _ => List.replicate 64 'a') [] 0 (strL r"SELECT 1")
        [] (strL r"SELECT") true none none
      = [mkAuditEntry 0 (List.replicate 64 'a') [] (strL r"SELECT") true none none]
    ∧ (mkAuditEntry 0 (List.replicate 64 'a') [] (strL r"SELECT") true none none).queryHash.length
        = 16 := by
  have hmain := c8_audit_log_invariant [] 0 (fun _ => List.replicate 64 'a')
    (strL r"SELECT 1") [] (strL r"SELECT") true none none (by decide) (by decide)
  exact ⟨hmain.1, hmain.2.2.1⟩

/-- C9: the outcome of the EULA/compliance probes (datathon window,
BigQuery configuration) has no effect whatsoever on `enforce_security`
(decision, message, tables and limiter state are all identical), and the
submission is appended to the rate-limit window exactly when the decision
is an allow (the pruning of stale entries happens on every call, inside
the rate check). -/
theorem c9_eula_soft_fail_and_record_on_allow (po : ParseOutcome) (q : List Char)
    (s : RateLimiterState) (now : Int) (p1 b1 : Bool) (m1 : List Char)
    (p2 b2 : Bool) (m2 : List Char) :
    enforce_security po q s now p1 b1 m1 = enforce_security po q s now p2 b2 m2
    ∧ (enforce_security po q s now p1 b1 m1).snd.queryTimes
        = (if (enforce_security po q s now p1 b1 m1).fst.fst
           then s.queryTimes.filter (fun t => now - 3600 < t) ++ [now]
           else s.queryTimes.filter (fun t => now - 3600 < t))
    ∧ (enforce_security po q s now p1 b1 m1).snd.maxPerHour = s.maxPerHour
    ∧ (enforce_security po q s now p1 b1 m1).snd.maxPerMinute = s.maxPerMinute := by
  refine ⟨rfl, ?_, ?_, ?_⟩ <;>
    · simp only [enforce_security]
      split_ifs <;> simp_all [record_query, crl_snd]

end Tulip
